import Mathlib

/-!
Verification development for the routine-builder repository.

The definitions below are a shallow embedding of the client script
(`script.js`) and of the Cloudflare worker file
(`search-proxy-worker.js`, which contains a combined chat+search worker
and a minimal search-only worker).  Pure data manipulation is translated
directly; DOM and network side effects are made explicit as event traces
and environment records that carry the outcome of each outbound call.
-/

/-- Product record as loaded from `products.json` (`{id, name, brand,
category, description, image}`). -/
structure Product where
  id : Nat
  name : String
  brand : String
  category : String
  description : String
  image : String
deriving DecidableEq

/-- Web search result shape `{title, snippet, url}` used by the client and
both workers. -/
structure SearchResult where
  title : String
  snippet : String
  url : String
deriving DecidableEq

/-- Chat message `{role, content}` of the conversation transcript. -/
structure ChatMsg where
  role : String
  content : String
deriving DecidableEq

/-- JavaScript `Array.prototype.join(sep)` on a list of strings. -/
def joinSep (sep : String) : List String → String
  | [] => ""
  | [x] => x
  | x :: y :: t => x ++ sep ++ joinSep sep (y :: t)

/-- Containment of the character list `t` inside `s`, mirroring
JavaScript `String.prototype.includes`. -/
def charsContains (t : List Char) : List Char → Bool
  | [] => t.isEmpty
  | c :: rest => t.isPrefixOf (c :: rest) || charsContains t rest

/-- JavaScript `s.includes(t)` on strings. -/
def strIncludes (s t : String) : Bool :=
  charsContains t.data s.data

/-- JavaScript `s.toLowerCase()` (ASCII case mapping, which covers the
catalog data). -/
def strToLower (s : String) : String :=
  String.mk (s.data.map Char.toLower)

/-- JavaScript `s.trim()`: strip whitespace from both ends. -/
def strTrim (s : String) : String :=
  String.mk (((s.data.dropWhile Char.isWhitespace).reverse.dropWhile
      Char.isWhitespace).reverse)

/-- Escape of a single character as performed by `JSON.stringify` inside a
JSON string literal. -/
def jsonEscapeChar (c : Char) : String :=
  if c = '"' then "\\\""
  else if c = '\\' then "\\\\"
  else if c = '\n' then "\\n"
  else if c = '\r' then "\\r"
  else if c = '\t' then "\\t"
  else if c = '\x08' then "\\b"
  else if c = '\x0c' then "\\f"
  else if c.toNat < 32 then
    "\\u00" ++ String.singleton (Nat.digitChar (c.toNat / 16))
            ++ String.singleton (Nat.digitChar (c.toNat % 16))
  else String.singleton c

/-- Escape of a whole string as performed by `JSON.stringify`. -/
def jsonEscape (s : String) : String :=
  String.join (s.data.map jsonEscapeChar)

/-- A JSON string literal for `s`. -/
def jsonStr (s : String) : String :=
  "\"" ++ jsonEscape s ++ "\""

/-- `JSON.stringify(ids)` for a numeric id array, as written by
`saveSelectedToStorage` (`script.js` lines 302-309). -/
def jsonIdArray (ids : List Nat) : String :=
  "[" ++ joinSep "," (ids.map toString) ++ "]"

/-- Lookup `productsById[id]` (`script.js` line 433).  The map is built by
assigning `map[p.id] = p` over the rendered product list; with unique ids
this equals a first-match lookup over that list. -/
def findProductById (products : List Product) (ident : Nat) : Option Product :=
  products.find? (fun p => p.id == ident)

/-- Removal of the first element with the given id, mirroring
`findIndex` followed by `splice(index, 1)` (`script.js` lines 436, 444 and
478-479).  When no element matches, the list is returned unchanged. -/
def removeFirstById (sel : List Product) (ident : Nat) : List Product :=
  match sel with
  | [] => []
  | p :: rest => if p.id == ident then rest else p :: removeFirstById rest ident

/-- Pure selection effect of `toggleSelection` (`script.js` lines 431-450):
if the id is absent from `selectedProducts` the product from
`productsById` is pushed at the end, otherwise the matching entry is
spliced out.  When the id is unknown the handler returns early. -/
def toggleSelection (catalog : List Product) (ident : Nat) (sel : List Product) :
    List Product :=
  match findProductById catalog ident with
  | none => sel
  | some product =>
    if sel.any (fun p => p.id == ident) then removeFirstById sel ident
    else sel ++ [product]

/-- Filtering pipeline of `updateProductGrid` (`script.js` lines 528-559):
the category filter applies when the selector value is nonempty, then the
trimmed lower-cased search term is matched against the lower-cased product
name with `includes`. -/
def updateProductGridFilter (products : List Product)
    (selectedCategory searchInput : String) : List Product :=
  let searchTerm := strToLower (strTrim searchInput)
  let f1 :=
    if selectedCategory ≠ "" then
      products.filter (fun p => p.category == selectedCategory)
    else products
  if searchTerm ≠ "" then
    f1.filter (fun p => strIncludes (strToLower p.name) searchTerm)
  else f1

/-- Placeholder object `{ id }` stored by `loadSelectedFromStorage` before
the catalog has loaded (`script.js` line 323); the remaining fields do not
exist on the JavaScript object and are modelled as empty strings. -/
def placeholderProduct (ident : Nat) : Product :=
  ⟨ident, "", "", "", "", ""⟩

/-- Rehydration of the selection from storage (`script.js` lines 312-328
and the identical logic in `init`, lines 643-649).  `stored` is the parsed
value of the `selectedProductIds` key: `none` models a missing key or a
value that is not an array (both guarded early returns). -/
def loadSelectedFromStorage (stored : Option (List Nat))
    (allProducts : List Product) (current : List Product) : List Product :=
  match stored with
  | none => current
  | some ids =>
    if allProducts.length > 0 then
      allProducts.filter (fun p => ids.contains p.id)
    else
      ids.map placeholderProduct

/-- Selection state together with the `selectedProductIds` local-storage
slot (`none` when the key has never been written). -/
structure SelUIState where
  selectedProducts : List Product
  storage : Option String
deriving DecidableEq

/-- `saveSelectedToStorage` (`script.js` lines 302-309): writes the JSON
id array of the current selection. -/
def saveSelectedToStorage (st : SelUIState) : SelUIState :=
  { st with storage := some (jsonIdArray (st.selectedProducts.map Product.id)) }

/-- Storage effect of `updateSelectedList` (`script.js` lines 452-525):
when the selection is empty the function returns right after rendering the
placeholder, before the `saveSelectedToStorage()` call at its end. -/
def updateSelectedList (st : SelUIState) : SelUIState :=
  if st.selectedProducts.length = 0 then st
  else saveSelectedToStorage st

/-- Full effect of a card toggle on selection and storage
(`toggleSelection`, which ends by calling `updateSelectedList`). -/
def toggleOp (catalog : List Product) (ident : Nat) (st : SelUIState) : SelUIState :=
  match findProductById catalog ident with
  | none => st
  | some _ =>
    updateSelectedList
      { st with selectedProducts := toggleSelection catalog ident st.selectedProducts }

/-- Full effect of a chip remove click (`script.js` lines 475-492):
splice out the entry, then `updateSelectedList()` followed by an explicit
`saveSelectedToStorage()`. -/
def chipRemoveOp (ident : Nat) (st : SelUIState) : SelUIState :=
  saveSelectedToStorage
    (updateSelectedList
      { st with selectedProducts := removeFirstById st.selectedProducts ident })

/-- Full effect of `clearAllSelections` (`script.js` lines 331-342):
empty the selection, `saveSelectedToStorage()`, then `updateSelectedList()`. -/
def clearAllOp (st : SelUIState) : SelUIState :=
  updateSelectedList (saveSelectedToStorage { st with selectedProducts := [] })

/-- The fixed system instruction (`script.js` lines 75-79). -/
def systemInstruction : ChatMsg :=
  ⟨"system",
   "You are a helpful skincare, haircare, makeup, and fragrance assistant. Only answer questions related to the provided routine or to topics like skincare, haircare, makeup, fragrance, and related product advice. Use up-to-date, real-world information when available and include links and short citations for any factual claims about current products, releases, or formulations. If the user asks about unrelated topics, politely decline and steer them back to the subject."⟩

/-- Projection `{name, brand, category, description}` built by the generate
handler (`script.js` lines 675-680). -/
structure ProductPayload where
  name : String
  brand : String
  category : String
  description : String
deriving DecidableEq

/-- One element of `productsPayload`. -/
def payloadOf (p : Product) : ProductPayload :=
  ⟨p.name, p.brand, p.category, p.description⟩

/-- One object of `JSON.stringify(productsPayload, null, 2)`, at array
nesting depth one (property indent four spaces, closing brace indent two). -/
def payloadJson (item : ProductPayload) : String :=
  "\x7b\n    \"name\": " ++ jsonStr item.name
    ++ ",\n    \"brand\": " ++ jsonStr item.brand
    ++ ",\n    \"category\": " ++ jsonStr item.category
    ++ ",\n    \"description\": " ++ jsonStr item.description
    ++ "\n  \x7d"

/-- `JSON.stringify(productsPayload, null, 2)` for the payload array. -/
def payloadArrayJson (items : List ProductPayload) : String :=
  match items with
  | [] => "[]"
  | _ => "[\n  " ++ joinSep ",\n  " (items.map payloadJson) ++ "\n]"

/-- Content of the generate handler's user message (`script.js`
lines 682-687). -/
def genUserContent (sel : List Product) : String :=
  "Here are the selected products in JSON. Use these only and create a short routine (steps, timing, and brief why) formatted as plain text.\n\n"
    ++ payloadArrayJson (sel.map payloadOf)

/-- Numbered web-result lines built by the client handlers
(`script.js` lines 596-601 and 707-713): entry i is
 `${i+1}. ${r.title || r.url}\n${r.snippet || ""}\n${r.url}`. -/
def clientResultLines (i : Nat) : List SearchResult → List String
  | [] => []
  | r :: t =>
    (toString (i + 1) ++ ". " ++ (if r.title = "" then r.url else r.title)
      ++ "\n" ++ r.snippet ++ "\n" ++ r.url) :: clientResultLines (i + 1) t

/-- Formatted block `webResults.slice(0, 6).map(...).join("\n\n")` used by
both client handlers. -/
def clientFormatWeb (web : List SearchResult) : String :=
  joinSep "\n\n" (clientResultLines 0 (web.take 6))

/-- The system message pushed when the client web search returned
results. -/
def webSysMsg (web : List SearchResult) : ChatMsg :=
  ⟨"system", "Web search results (top):\n\n" ++ clientFormatWeb web⟩

/-- Outcome of the search-proxy fetch inside `performWebSearch`
(`script.js` lines 152-171), distinguishing the failure modes the claims
talk about: a thrown network error, a non-2xx response, a body whose JSON
parse throws, a JSON array, an object with an array `results` field, and
any other JSON value. -/
inductive ProxyResp where
  | fetchError
  | httpNotOk
  | parseError
  | jsonArr (rs : List SearchResult)
  | jsonResults (rs : List SearchResult)
  | jsonOther
deriving DecidableEq

/-- Observable client events: outbound network calls, button state
changes, chat-window writes and the citation block. -/
inductive CEv where
  | searchCall (q : String)
  | chatCall (msgs : List ChatMsg)
  | disableBtn
  | enableBtn
  | display (role : String) (content : String)
  | citations
deriving DecidableEq

/-- Client environment: whether `window.SEARCH_PROXY_URL` is set, how the
search proxy behaves, and the outcome of `callOpenAIWithMessages` (an
`error` models any thrown error: network failure or a non-ok response).
The chat proxy URL itself has a hardcoded nonempty default, so the chat
fetch is always attempted. -/
structure ClientEnv where
  searchProxyConfigured : Bool
  proxyResp : ProxyResp
  chatOutcome : Except String String

/-- Module-level client state (`script.js` lines 71-73 and 211). -/
structure ClientState where
  selectedProducts : List Product
  conversationMessages : List ChatMsg
  routineGenerated : Bool

/-- `performWebSearch(query)` (`script.js` lines 152-171): with no proxy
configured it returns an empty list without fetching; otherwise it fetches
and maps every failure shape to an empty list inside its try/catch, so it
always resolves to a list and never throws. -/
def performWebSearch (env : ClientEnv) (q : String) : List SearchResult × List CEv :=
  if env.searchProxyConfigured = false then ([], [])
  else
    (match env.proxyResp with
     | ProxyResp.fetchError => []
     | ProxyResp.httpNotOk => []
     | ProxyResp.parseError => []
     | ProxyResp.jsonArr rs => rs
     | ProxyResp.jsonResults rs => rs
     | ProxyResp.jsonOther => [], [CEv.searchCall q])

/-- Click handler of the generate button (`script.js` lines 664-740),
returning the new state and the event trace in program order. -/
def generateClick (env : ClientEnv) (st : ClientState) : ClientState × List CEv :=
  if st.selectedProducts.length = 0 then
    (st, [CEv.display "assistant" "Please select one or more products first."])
  else
    let payload := st.selectedProducts.map payloadOf
    let userMsg : ChatMsg := ⟨"user", genUserContent st.selectedProducts⟩
    let conv1 := [systemInstruction, userMsg]
    let productNames := joinSep ", " (payload.map ProductPayload.name)
    let query := "L\x27Oréal " ++ productNames
      ++ " routine, product information, releases, or reviews"
    let ws := performWebSearch env query
    let web := ws.fst
    let conv2 := if web.length > 0 then conv1 ++ [webSysMsg web] else conv1
    match env.chatOutcome with
    | Except.ok reply =>
      ({ st with conversationMessages := conv2 ++ [⟨"assistant", reply⟩],
                 routineGenerated := true },
       [CEv.disableBtn,
        CEv.display "assistant" "Generating routine… Please wait."]
        ++ ws.snd
        ++ [CEv.chatCall conv2, CEv.display "assistant" reply]
        ++ (if web.length > 0 then [CEv.citations] else [])
        ++ [CEv.enableBtn])
    | Except.error e =>
      ({ st with conversationMessages := conv2 },
       [CEv.disableBtn,
        CEv.display "assistant" "Generating routine… Please wait."]
        ++ ws.snd
        ++ [CEv.chatCall conv2,
            CEv.display "assistant" ("Error generating routine: " ++ e),
            CEv.enableBtn])

/-- Submit handler of the chat form (`script.js` lines 570-624), with
`text` the raw input value.  Note that the web search runs before the send
button is disabled. -/
def followUpSubmit (env : ClientEnv) (st : ClientState) (text : String) :
    ClientState × List CEv :=
  let t := strTrim text
  if t = "" then (st, [])
  else if st.routineGenerated = false then
    (st, [CEv.display "assistant"
      "Please generate a routine first, then ask follow-up questions about it."])
  else
    let conv1 := st.conversationMessages ++ [⟨"user", t⟩]
    let ws := performWebSearch env (t ++ " L\x27Oréal")
    let web := ws.fst
    let conv2 := if web.length > 0 then conv1 ++ [webSysMsg web] else conv1
    match env.chatOutcome with
    | Except.ok reply =>
      ({ st with conversationMessages := conv2 ++ [⟨"assistant", reply⟩] },
       [CEv.display "user" t] ++ ws.snd
        ++ [CEv.disableBtn, CEv.chatCall conv2, CEv.display "assistant" reply]
        ++ (if web.length > 0 then [CEv.citations] else [])
        ++ [CEv.enableBtn])
    | Except.error e =>
      ({ st with conversationMessages := conv2 },
       [CEv.display "user" t] ++ ws.snd
        ++ [CEv.disableBtn, CEv.chatCall conv2,
            CEv.display "assistant" ("Error: " ++ e),
            CEv.enableBtn])

/-- Whether an event is an outbound network call. -/
def isNetCall : CEv → Bool
  | CEv.searchCall _ => true
  | CEv.chatCall _ => true
  | _ => false

/-- Scan of a trace checking that every chat-proxy call happens while the
triggering control is disabled and that the control ends up enabled. -/
def chatGuarded : List CEv → Bool → Bool
  | [], disabled => disabled == false
  | CEv.disableBtn :: t, _ => chatGuarded t true
  | CEv.enableBtn :: t, _ => chatGuarded t false
  | CEv.chatCall _ :: t, disabled => disabled && chatGuarded t disabled
  | _ :: t, disabled => chatGuarded t disabled

/-- Scan of a trace checking that every network call (search or chat)
happens while the triggering control is disabled and that the control ends
up enabled. -/
def netGuarded : List CEv → Bool → Bool
  | [], disabled => disabled == false
  | CEv.disableBtn :: t, _ => netGuarded t true
  | CEv.enableBtn :: t, _ => netGuarded t false
  | CEv.chatCall _ :: t, disabled => disabled && netGuarded t disabled
  | CEv.searchCall _ :: t, disabled => disabled && netGuarded t disabled
  | _ :: t, disabled => netGuarded t disabled

/-- Outbound calls made by the workers: the Responses-driven search fetch
and the language-model fetch carrying the flattened prompt. -/
inductive WCall where
  | searchFetch (q : String)
  | lmFetch (input : String)
deriving DecidableEq

/-- Worker response bodies: `{results}`, `{error}`, and the `/chat` success
body `{reply, web_results, openai}` (the opaque raw provider JSON is not
modelled). -/
inductive RespBody where
  | resultsB (rs : List SearchResult)
  | errB (msg : String)
  | chatB (reply : String) (webResults : List SearchResult)
deriving DecidableEq

/-- Worker HTTP response. -/
structure WResp where
  status : Nat
  body : RespBody
deriving DecidableEq

/-- Environment of the combined worker.  `searchStep` abstracts the
Responses fetch plus the free-text extraction of `doOpenAISearch`
(`search-proxy-worker.js` lines 49-115) as its resulting pre-slice list or
a thrown error; `lmStep` likewise abstracts the Responses fetch plus text
extraction of `callOpenAIResponses` (lines 133-175). -/
structure WEnv where
  OPENAI_API_KEY : Option String
  searchStep : Except String (List SearchResult)
  lmStep : Except String String

/-- `doOpenAISearch(q, env, max)` (`search-proxy-worker.js` lines 40-118):
throws when the key is missing (before any fetch), otherwise fetches and
returns `results.slice(0, max)`. -/
def doOpenAISearch (env : WEnv) (q : String) (maxN : Nat) :
    Except String (List SearchResult) × List WCall :=
  match env.OPENAI_API_KEY with
  | none => (Except.error "Missing OPENAI_API_KEY in worker environment", [])
  | some _ =>
    match env.searchStep with
    | Except.error e => (Except.error e, [WCall.searchFetch q])
    | Except.ok rs => (Except.ok (rs.take maxN), [WCall.searchFetch q])

/-- Numbered result lines of the combined worker's `/chat` branch
(`search-proxy-worker.js` lines 221-223): entry i is
 `${i+1}. ${r.title}\n${r.snippet}\n${r.url}`. -/
def workerResultLines (i : Nat) : List SearchResult → List String
  | [] => []
  | r :: t =>
    (toString (i + 1) ++ ". " ++ r.title ++ "\n" ++ r.snippet ++ "\n" ++ r.url)
      :: workerResultLines (i + 1) t

/-- `webResults.map(...).join("\n\n")` in the `/chat` branch. -/
def workerFormat (rs : List SearchResult) : String :=
  joinSep "\n\n" (workerResultLines 0 rs)

/-- Prompt flattening of `callOpenAIResponses` (`search-proxy-worker.js`
lines 124-131): one `ROLE: content` part per recognised role, in transcript
order, joined by blank lines. -/
def flattenMessages (msgs : List ChatMsg) : String :=
  joinSep "\n\n"
    (msgs.filterMap (fun m =>
      if m.role = "system" then some ("SYSTEM: " ++ m.content)
      else if m.role = "user" then some ("USER: " ++ m.content)
      else if m.role = "assistant" then some ("ASSISTANT: " ++ m.content)
      else none))

/-- `callOpenAIResponses(messages, env)` (`search-proxy-worker.js`
lines 120-176): throws without the key, otherwise fetches the Responses
API with the flattened prompt and yields the extracted assistant text. -/
def callOpenAIResponsesM (env : WEnv) (msgs : List ChatMsg) :
    Except String String × List WCall :=
  match env.OPENAI_API_KEY with
  | none => (Except.error "Missing OPENAI_API_KEY in worker environment", [])
  | some _ =>
    match env.lmStep with
    | Except.error e => (Except.error e, [WCall.lmFetch (flattenMessages msgs)])
    | Except.ok text => (Except.ok text, [WCall.lmFetch (flattenMessages msgs)])

/-- Parsed `/chat` request body `{ message?, messages? }`.  `none` for
`message` models an absent, non-string or empty-string field (all falsy in
the guard at `search-proxy-worker.js` line 206); `none` for `messages`
models an absent or non-array field. -/
structure ChatBody where
  message : Option String
  messages : Option (List ChatMsg)

/-- Content of the last user-role turn (`search-proxy-worker.js`
lines 208-214), empty when there is none. -/
def lastUserContent (body : ChatBody) : String :=
  match body.messages with
  | none => ""
  | some ms =>
    if ms.length = 0 then ""
    else
      match ms.reverse.find? (fun m => m.role == "user") with
      | some m => m.content
      | none => ""

/-- Search-query derivation of the `/chat` branch (`search-proxy-worker.js`
lines 204-214): the trimmed explicit `message` when present and nonempty,
else the last user turn. -/
def deriveQuery (body : ChatBody) : String :=
  match body.message with
  | some s => if s = "" then lastUserContent body else strTrim s
  | none => lastUserContent body

/-- The `/chat` branch of the combined worker (`search-proxy-worker.js`
lines 187-248), including the top-level catch (lines 280-288) that turns a
thrown error into a 500 `{error}` body.  `ctJson` says whether the request
content type includes `application/json`. -/
def chatBranch (env : WEnv) (ctJson : Bool) (body : ChatBody) :
    WResp × List WCall :=
  if ctJson = false then (⟨400, RespBody.errB "Expected application/json"⟩, [])
  else
    let msgs := body.messages.getD []
    let q := deriveQuery body
    let step :=
      if q = "" then (msgs, ([] : List SearchResult), ([] : List WCall))
      else
        match doOpenAISearch env q 6 with
        | (Except.ok rs, cs) =>
          let formatted := workerFormat rs
          (if formatted = "" then msgs
           else ⟨"system", "Web search results (top):\n\n" ++ formatted⟩ :: msgs,
           rs, cs)
        | (Except.error e, cs) =>
          (⟨"system", "Web search failed: " ++ e⟩ :: msgs, [], cs)
    match callOpenAIResponsesM env step.1 with
    | (Except.ok text, cs2) =>
      (⟨200, RespBody.chatB text step.2.1⟩, step.2.2 ++ cs2)
    | (Except.error e, cs2) =>
      (⟨500, RespBody.errB e⟩, step.2.2 ++ cs2)

/-- The `/search` branch of the combined worker (`search-proxy-worker.js`
lines 252-274) with the top-level catch (lines 280-288).  `q` is the
resolved `(body.q || body.query || "").toString()` value. -/
def combinedSearchBranch (env : WEnv) (ctJson : Bool) (q : String) :
    WResp × List WCall :=
  if ctJson = false then (⟨400, RespBody.errB "Expected application/json"⟩, [])
  else
    let q2 := strTrim q
    if q2 = "" then (⟨200, RespBody.resultsB []⟩, [])
    else
      match doOpenAISearch env q2 8 with
      | (Except.error e, cs) => (⟨500, RespBody.errB e⟩, cs)
      | (Except.ok rs, cs) => (⟨200, RespBody.resultsB rs⟩, cs)

/-- Outcome of a provider fetch in the minimal worker: a thrown error, a
non-ok response, or an ok response whose items were already reshaped to
`{title, snippet, url}` (the field-fallback mapping at
`search-proxy-worker.js` lines 355-359 and 371-375 is abstracted). -/
inductive FetchRes where
  | threw (msg : String)
  | notOk
  | okItems (items : List SearchResult)

/-- Environment of the minimal search-only worker. -/
structure MEnv where
  SERPAPI_KEY : Option String
  GOOGLE_API_KEY : Option String
  GOOGLE_CX : Option String
  serpStep : FetchRes
  googleStep : FetchRes

/-- POST handling of the minimal search worker (`search-proxy-worker.js`
lines 310-397) for an already-extracted query string: SerpAPI when its key
is set, else Google Programmable Search when both its values are set, else
a 400 `{error}` body; a thrown provider error reaches the top-level catch
as a 500. -/
def minimalSearch (env : MEnv) (q : String) : WResp × List WCall :=
  let q2 := strTrim q
  if q2 = "" then (⟨200, RespBody.resultsB []⟩, [])
  else
    match env.SERPAPI_KEY with
    | some _ =>
      (match env.serpStep with
       | FetchRes.threw m => (⟨500, RespBody.errB m⟩, [WCall.searchFetch q2])
       | FetchRes.notOk => (⟨200, RespBody.resultsB []⟩, [WCall.searchFetch q2])
       | FetchRes.okItems items =>
         (⟨200, RespBody.resultsB (items.take 6)⟩, [WCall.searchFetch q2]))
    | none =>
      match env.GOOGLE_API_KEY, env.GOOGLE_CX with
      | some _, some _ =>
        (match env.googleStep with
         | FetchRes.threw m => (⟨500, RespBody.errB m⟩, [WCall.searchFetch q2])
         | FetchRes.notOk => (⟨200, RespBody.resultsB []⟩, [WCall.searchFetch q2])
         | FetchRes.okItems items =>
           (⟨200, RespBody.resultsB (items.take 6)⟩, [WCall.searchFetch q2]))
      | _, _ =>
        (⟨400,
          RespBody.errB
            "No search API key configured (SERPAPI_KEY or GOOGLE_API_KEY+GOOGLE_CX)."⟩,
         [])

theorem charsContains_nil (l : List Char) : charsContains [] l = true := by
  cases l <;> rfl

theorem strIncludes_empty (s : String) : strIncludes s "" = true :=
  charsContains_nil s.data

/-- C3: the filtered grid contains exactly the products whose category
equals the selected category (all of them when the category is empty) and
whose name contains the trimmed search term case-insensitively, and the
result is a subsequence of the given product list. -/
theorem C3_filter_correct (products : List Product) (cat searchInput : String)
    (p : Product) :
    (updateProductGridFilter products cat searchInput).Sublist products ∧
    (p ∈ updateProductGridFilter products cat searchInput ↔
      p ∈ products ∧ (cat = "" ∨ p.category = cat) ∧
        strIncludes (strToLower p.name) (strToLower (strTrim searchInput)) = true) := by
  constructor
  · by_cases hc : cat = "" <;> by_cases hs : strToLower (strTrim searchInput) = "" <;>
      simp only [updateProductGridFilter, hc, hs, ne_eq, not_true_eq_false,
        not_false_eq_true, if_true, if_false, ite_true, ite_false] <;>
      first
        | exact List.Sublist.refl _
        | exact List.filter_sublist _
        | exact List.Sublist.trans (List.filter_sublist _) (List.filter_sublist _)
  · by_cases hc : cat = "" <;> by_cases hs : strToLower (strTrim searchInput) = "" <;>
      simp [updateProductGridFilter, hc, hs, List.mem_filter, strIncludes_empty,
        and_assoc, and_comm, and_left_comm]

/-- C10: `performWebSearch` always resolves to a list (all its failure
modes are absorbed by its try/catch): with no proxy configured it returns
an empty list without a network call; for a JSON array body or an object
with an array `results` field it returns that list; in every failure case
(thrown fetch, non-2xx response, JSON parse failure, any other JSON shape)
it returns the empty list. -/
theorem C10_websearch_total (env : ClientEnv) (q : String) :
    (env.searchProxyConfigured = false → performWebSearch env q = ([], [])) ∧
    (env.searchProxyConfigured = true →
      ∀ rs, (env.proxyResp = ProxyResp.jsonArr rs ∨
             env.proxyResp = ProxyResp.jsonResults rs) →
        (performWebSearch env q).fst = rs) ∧
    ((env.proxyResp = ProxyResp.fetchError ∨ env.proxyResp = ProxyResp.httpNotOk ∨
      env.proxyResp = ProxyResp.parseError ∨ env.proxyResp = ProxyResp.jsonOther) →
      (performWebSearch env q).fst = []) := by
  obtain ⟨cfg, resp, chat⟩ := env
  refine ⟨?_, ?_, ?_⟩
  · intro h; subst h; rfl
  · intro h rs hr
    subst h
    rcases hr with hr | hr <;> (subst hr; rfl)
  · intro h
    cases cfg
    · rfl
    · rcases h with h | h | h | h <;> (subst h; rfl)

theorem C10_witness :
    performWebSearch ⟨false, ProxyResp.jsonOther, Except.ok ""⟩ "q" = ([], []) ∧
    (performWebSearch ⟨true, ProxyResp.jsonResults [⟨"t", "s", "u"⟩],
        Except.ok ""⟩ "q").fst = [⟨"t", "s", "u"⟩] ∧
    (performWebSearch ⟨true, ProxyResp.httpNotOk, Except.ok ""⟩ "q").fst = [] :=
  ⟨(C10_websearch_total _ "q").1 rfl,
   (C10_websearch_total _ "q").2.1 rfl _ (Or.inr rfl),
   (C10_websearch_total _ "q").2.2 (Or.inr (Or.inl rfl))⟩

/-- C5: invoking the generate handler with an empty Selection Set leaves
the whole client state (in particular the Transcript and the
routine-generated flag) unchanged, emits only the inline notice, and
issues no network call. -/
theorem C5_empty_generate (env : ClientEnv) (st : ClientState)
    (h : st.selectedProducts = []) :
    (generateClick env st).fst = st ∧
    (generateClick env st).snd =
      [CEv.display "assistant" "Please select one or more products first."] ∧
    ∀ e ∈ (generateClick env st).snd, isNetCall e = false := by
  refine ⟨?_, ?_, ?_⟩ <;> simp [generateClick, h, isNetCall]

theorem C5_witness :
    (generateClick ⟨true, ProxyResp.jsonArr [⟨"t", "s", "u"⟩], Except.ok "r"⟩
        ⟨[], [systemInstruction], true⟩).fst = ⟨[], [systemInstruction], true⟩ ∧
    (generateClick ⟨true, ProxyResp.jsonArr [⟨"t", "s", "u"⟩], Except.ok "r"⟩
        ⟨[], [systemInstruction], true⟩).snd =
      [CEv.display "assistant" "Please select one or more products first."] ∧
    ∀ e ∈ (generateClick ⟨true, ProxyResp.jsonArr [⟨"t", "s", "u"⟩], Except.ok "r"⟩
        ⟨[], [systemInstruction], true⟩).snd, isNetCall e = false :=
  C5_empty_generate _ _ rfl

/-- C1: evaluation of the code at the failing input of the persistence
claim.  Toggling off the last selected product empties the Selection Set,
but `updateSelectedList` returns before its `saveSelectedToStorage()`
call when the selection is empty, so storage keeps the stale id list
instead of the id-projection `[]` of the current Selection Set. -/
theorem C1_toggle_empty_skips_persist :
    (toggleOp [⟨1, "Gel", "LOreal", "cleanser", "d", "img"⟩] 1
        ⟨[⟨1, "Gel", "LOreal", "cleanser", "d", "img"⟩], some "[1]"⟩).selectedProducts
      = [] ∧
    (toggleOp [⟨1, "Gel", "LOreal", "cleanser", "d", "img"⟩] 1
        ⟨[⟨1, "Gel", "LOreal", "cleanser", "d", "img"⟩], some "[1]"⟩).storage
      = some "[1]" ∧
    some "[1]" ≠ some (jsonIdArray ([] : List Nat)) := by
  refine ⟨rfl, rfl, by decide⟩

theorem removeFirstById_sublist (sel : List Product) (i : Nat) :
    (removeFirstById sel i).Sublist sel := by
  induction sel with
  | nil => exact List.Sublist.refl _
  | cons p rest ih =>
    simp only [removeFirstById]
    split
    · exact (List.Sublist.refl rest).cons p
    · exact ih.cons₂ p

theorem find_productById_spec (c : List Product) (i : Nat) (p : Product)
    (h : findProductById c i = some p) : p ∈ c ∧ p.id = i := by
  unfold findProductById at h
  refine ⟨List.mem_of_find?_eq_some h, ?_⟩
  have := List.find?_some h
  simpa using this

theorem removeFirstById_id_ne (sel : List Product) (i : Nat)
    (h : (sel.map Product.id).Nodup) :
    ∀ q ∈ removeFirstById sel i, q.id ≠ i := by
  induction sel with
  | nil => simp [removeFirstById]
  | cons p rest ih =>
    simp only [List.map_cons, List.nodup_cons] at h
    obtain ⟨hp, hrest⟩ := h
    simp only [removeFirstById]
    split
    case isTrue hpi =>
      intro q hq hqe
      have hpi' : p.id = i := by simpa using hpi
      apply hp
      rw [hpi', ← hqe]
      exact List.mem_map_of_mem Product.id hq
    case isFalse hpi =>
      intro q hq
      rcases List.mem_cons.mp hq with hq | hq
      · subst hq
        simpa using hpi
      · exact ih hrest q hq

theorem removeFirstById_append (s : List Product) (p : Product) (i : Nat)
    (hs : ∀ q ∈ s, q.id ≠ i) (hp : p.id = i) :
    removeFirstById (s ++ [p]) i = s := by
  induction s with
  | nil => simp [removeFirstById, hp]
  | cons x rest ih =>
    have hx : x.id ≠ i := hs x (List.mem_cons_self _ _)
    have hxb : ¬((x.id == i) = true) := by simpa using hx
    show (if (x.id == i) = true then rest ++ [p]
          else x :: removeFirstById (rest ++ [p]) i) = x :: rest
    rw [if_neg hxb, ih (fun q hq => hs q (List.mem_cons_of_mem _ hq))]

theorem removeFirstById_perm (sel : List Product) (i : Nat) (p : Product)
    (hu : ∀ q ∈ sel, q.id = i → q = p)
    (ha : sel.any (fun q => q.id == i) = true) :
    sel.Perm (removeFirstById sel i ++ [p]) := by
  induction sel with
  | nil => simp at ha
  | cons x rest ih =>
    by_cases hx : x.id = i
    · have hxp : x = p := hu x (List.mem_cons_self _ _) hx
      have hxb : (x.id == i) = true := by simpa using hx
      show (x :: rest).Perm
        ((if (x.id == i) = true then rest else x :: removeFirstById rest i) ++ [p])
      rw [if_pos hxb]
      subst hxp
      exact (List.perm_append_singleton _ _).symm
    · have hxb : ¬((x.id == i) = true) := by simpa using hx
      show (x :: rest).Perm
        ((if (x.id == i) = true then rest else x :: removeFirstById rest i) ++ [p])
      rw [if_neg hxb, List.cons_append]
      apply List.Perm.cons
      apply ih (fun q hq hqi => hu q (List.mem_cons_of_mem _ hq) hqi)
      have hxf : (x.id == i) = false := by simpa using hx
      simpa [List.any_cons, hxf] using ha

/-- C2 counterexample: toggling id 1 twice on the selection
`[product 1, product 2]` ends with `[product 2, product 1]`, not the
original order, so toggle twice is not an involution on the ordered
selection state. -/
theorem C2_counterexample :
    toggleSelection
        [⟨1, "Gel", "b", "cleanser", "d", "i"⟩,
         ⟨2, "Cream", "b", "moisturizer", "d", "i"⟩] 1
        (toggleSelection
          [⟨1, "Gel", "b", "cleanser", "d", "i"⟩,
           ⟨2, "Cream", "b", "moisturizer", "d", "i"⟩] 1
          [⟨1, "Gel", "b", "cleanser", "d", "i"⟩,
           ⟨2, "Cream", "b", "moisturizer", "d", "i"⟩])
      = [⟨2, "Cream", "b", "moisturizer", "d", "i"⟩,
         ⟨1, "Gel", "b", "cleanser", "d", "i"⟩] ∧
    toggleSelection
        [⟨1, "Gel", "b", "cleanser", "d", "i"⟩,
         ⟨2, "Cream", "b", "moisturizer", "d", "i"⟩] 1
        (toggleSelection
          [⟨1, "Gel", "b", "cleanser", "d", "i"⟩,
           ⟨2, "Cream", "b", "moisturizer", "d", "i"⟩] 1
          [⟨1, "Gel", "b", "cleanser", "d", "i"⟩,
           ⟨2, "Cream", "b", "moisturizer", "d", "i"⟩])
      ≠ [⟨1, "Gel", "b", "cleanser", "d", "i"⟩,
         ⟨2, "Cream", "b", "moisturizer", "d", "i"⟩] := by
  refine ⟨rfl, by decide⟩

/-- C2 (amended): for a catalog id whose product resolves to `p`, and a
duplicate-free selection whose entry with that id (if any) is `p` itself,
toggling twice returns the Selection Set to its original membership (the
result is a permutation of the original); the original order — and the
exact list — is restored when the product was not initially selected.
When it was selected, the second toggle re-appends it at the end, so the
order is generally not restored. -/
theorem C2_toggle_twice (catalog sel : List Product) (i : Nat) (p : Product)
    (hfind : findProductById catalog i = some p)
    (hnd : (sel.map Product.id).Nodup)
    (hu : ∀ q ∈ sel, q.id = i → q = p) :
    (toggleSelection catalog i (toggleSelection catalog i sel)).Perm sel ∧
    (i ∉ sel.map Product.id →
      toggleSelection catalog i (toggleSelection catalog i sel) = sel) := by
  have hpid : p.id = i := (find_productById_spec _ _ _ hfind).2
  by_cases hmem : sel.any (fun q => q.id == i) = true
  · have hrf : ¬((removeFirstById sel i).any (fun q => q.id == i) = true) := by
      rw [List.any_eq_true]
      rintro ⟨q, hq, hqe⟩
      exact removeFirstById_id_ne sel i hnd q hq (by simpa using hqe)
    have hinner : toggleSelection catalog i sel = removeFirstById sel i := by
      simp only [toggleSelection, hfind]
      rw [if_pos hmem]
    have houter2 : toggleSelection catalog i (removeFirstById sel i)
        = removeFirstById sel i ++ [p] := by
      simp only [toggleSelection, hfind]
      rw [if_neg hrf]
    constructor
    · rw [hinner, houter2]
      exact (removeFirstById_perm sel i p hu hmem).symm
    · intro hni
      exfalso
      rw [List.any_eq_true] at hmem
      obtain ⟨q, hq, hqe⟩ := hmem
      exact hni (List.mem_map.mpr ⟨q, hq, by simpa using hqe⟩)
  · have hni : ∀ q ∈ sel, q.id ≠ i := by
      intro q hq hqe
      exact hmem (List.any_eq_true.mpr ⟨q, hq, by simpa using hqe⟩)
    have houter : ((sel ++ [p]).any (fun q => q.id == i)) = true := by
      rw [List.any_eq_true]
      exact ⟨p, List.mem_append_right _ (List.mem_singleton.mpr rfl),
        by simpa using hpid⟩
    have hinner : toggleSelection catalog i sel = sel ++ [p] := by
      simp only [toggleSelection, hfind]
      rw [if_neg hmem]
    have houter2 : toggleSelection catalog i (sel ++ [p])
        = removeFirstById (sel ++ [p]) i := by
      simp only [toggleSelection, hfind]
      rw [if_pos houter]
    have heq : toggleSelection catalog i (toggleSelection catalog i sel) = sel := by
      rw [hinner, houter2, removeFirstById_append sel p i hni hpid]
    refine ⟨?_, fun _ => heq⟩
    rw [heq]

theorem C2_witness :
    (toggleSelection [⟨1, "Gel", "b", "cleanser", "d", "i"⟩] 1
        (toggleSelection [⟨1, "Gel", "b", "cleanser", "d", "i"⟩] 1
          [⟨1, "Gel", "b", "cleanser", "d", "i"⟩])).Perm
      [⟨1, "Gel", "b", "cleanser", "d", "i"⟩] ∧
    (1 ∉ ([⟨1, "Gel", "b", "cleanser", "d", "i"⟩] : List Product).map Product.id →
      toggleSelection [⟨1, "Gel", "b", "cleanser", "d", "i"⟩] 1
          (toggleSelection [⟨1, "Gel", "b", "cleanser", "d", "i"⟩] 1
            [⟨1, "Gel", "b", "cleanser", "d", "i"⟩])
        = [⟨1, "Gel", "b", "cleanser", "d", "i"⟩]) :=
  C2_toggle_twice _ _ _ _ rfl (by decide) (by decide)

/-- C9: every operation producing a Selection Set state preserves the two
invariants: the ids of the selection are duplicate-free, and (once the
catalog has loaded) every selected entry is a catalog Product.  Toggle and
chip removal preserve both given a duplicate-free catalog-backed selection;
clear produces the empty selection; rehydration against a loaded catalog
yields a duplicate-free sub-selection of the catalog; rehydration before
the catalog has loaded maps duplicate-free stored ids to duplicate-free
placeholder entries. -/
theorem C9_invariants (catalog sel : List Product) (i : Nat) (ids : List Nat)
    (st : SelUIState)
    (hcat : (catalog.map Product.id).Nodup)
    (hnd : (sel.map Product.id).Nodup)
    (hmem : ∀ p ∈ sel, p ∈ catalog) :
    (((toggleSelection catalog i sel).map Product.id).Nodup ∧
      ∀ p ∈ toggleSelection catalog i sel, p ∈ catalog) ∧
    (((removeFirstById sel i).map Product.id).Nodup ∧
      ∀ p ∈ removeFirstById sel i, p ∈ catalog) ∧
    (((clearAllOp st).selectedProducts.map Product.id).Nodup ∧
      ∀ p ∈ (clearAllOp st).selectedProducts, p ∈ catalog) ∧
    (catalog.length > 0 →
      ((loadSelectedFromStorage (some ids) catalog sel).map Product.id).Nodup ∧
      ∀ p ∈ loadSelectedFromStorage (some ids) catalog sel, p ∈ catalog) ∧
    (ids.Nodup →
      ((loadSelectedFromStorage (some ids) ([] : List Product) sel).map
        Product.id).Nodup) := by
  have hremove_nd : ((removeFirstById sel i).map Product.id).Nodup :=
    hnd.sublist ((removeFirstById_sublist sel i).map Product.id)
  have hremove_mem : ∀ p ∈ removeFirstById sel i, p ∈ catalog :=
    fun p hp => hmem p ((removeFirstById_sublist sel i).mem hp)
  refine ⟨?_, ⟨hremove_nd, hremove_mem⟩, ?_, ?_, ?_⟩
  · cases hfind : findProductById catalog i with
    | none =>
      simp only [toggleSelection, hfind]
      exact ⟨hnd, hmem⟩
    | some p =>
      have hpmem := find_productById_spec _ _ _ hfind
      by_cases hany : sel.any (fun q => q.id == i) = true
      · have heq : toggleSelection catalog i sel = removeFirstById sel i := by
          simp only [toggleSelection, hfind]
          rw [if_pos hany]
        rw [heq]
        exact ⟨hremove_nd, hremove_mem⟩
      · have heq : toggleSelection catalog i sel = sel ++ [p] := by
          simp only [toggleSelection, hfind]
          rw [if_neg hany]
        have hni : p.id ∉ sel.map Product.id := by
          rw [List.mem_map]
          rintro ⟨q, hq, hqe⟩
          exact hany (List.any_eq_true.mpr ⟨q, hq, by simp [hqe, hpmem.2]⟩)
        constructor
        · rw [heq, List.map_append]
          simp [List.nodup_append, hnd, hni]
        · intro q hq
          rw [heq] at hq
          rcases List.mem_append.mp hq with hq | hq
          · exact hmem q hq
          · rw [List.mem_singleton.mp hq]
            exact hpmem.1
  · constructor
    · simp [clearAllOp, saveSelectedToStorage, updateSelectedList]
    · simp [clearAllOp, saveSelectedToStorage, updateSelectedList]
  · intro hlen
    have heq : loadSelectedFromStorage (some ids) catalog sel
        = catalog.filter (fun p => ids.contains p.id) := by
      simp only [loadSelectedFromStorage]
      rw [if_pos hlen]
    rw [heq]
    constructor
    · exact hcat.sublist ((List.filter_sublist _).map Product.id)
    · exact fun p hp => (List.mem_filter.mp hp).1
  · intro hids
    simp only [loadSelectedFromStorage, List.length_nil, gt_iff_lt,
      Nat.lt_irrefl, if_false, ite_false]
    have : (ids.map placeholderProduct).map Product.id = ids := by
      rw [List.map_map]
      exact List.map_id ids
    rw [this]
    exact hids

theorem C9_witness :
    (((toggleSelection [⟨1, "Gel", "b", "c", "d", "i"⟩, ⟨2, "Cream", "b", "m", "d", "i"⟩]
          2 [⟨1, "Gel", "b", "c", "d", "i"⟩]).map Product.id).Nodup ∧
      ∀ p ∈ toggleSelection [⟨1, "Gel", "b", "c", "d", "i"⟩, ⟨2, "Cream", "b", "m", "d", "i"⟩]
          2 [⟨1, "Gel", "b", "c", "d", "i"⟩],
        p ∈ [⟨1, "Gel", "b", "c", "d", "i"⟩, ⟨2, "Cream", "b", "m", "d", "i"⟩]) ∧
    (((removeFirstById [⟨1, "Gel", "b", "c", "d", "i"⟩] 2).map Product.id).Nodup ∧
      ∀ p ∈ removeFirstById [⟨1, "Gel", "b", "c", "d", "i"⟩] 2,
        p ∈ [⟨1, "Gel", "b", "c", "d", "i"⟩, ⟨2, "Cream", "b", "m", "d", "i"⟩]) ∧
    (((clearAllOp ⟨[⟨1, "Gel", "b", "c", "d", "i"⟩], none⟩).selectedProducts.map
        Product.id).Nodup ∧
      ∀ p ∈ (clearAllOp ⟨[⟨1, "Gel", "b", "c", "d", "i"⟩], none⟩).selectedProducts,
        p ∈ [⟨1, "Gel", "b", "c", "d", "i"⟩, ⟨2, "Cream", "b", "m", "d", "i"⟩]) ∧
    (([⟨1, "Gel", "b", "c", "d", "i"⟩, ⟨2, "Cream", "b", "m", "d", "i"⟩] :
        List Product).length > 0 →
      ((loadSelectedFromStorage (some [1, 2])
          [⟨1, "Gel", "b", "c", "d", "i"⟩, ⟨2, "Cream", "b", "m", "d", "i"⟩]
          [⟨1, "Gel", "b", "c", "d", "i"⟩]).map Product.id).Nodup ∧
      ∀ p ∈ loadSelectedFromStorage (some [1, 2])
          [⟨1, "Gel", "b", "c", "d", "i"⟩, ⟨2, "Cream", "b", "m", "d", "i"⟩]
          [⟨1, "Gel", "b", "c", "d", "i"⟩],
        p ∈ [⟨1, "Gel", "b", "c", "d", "i"⟩, ⟨2, "Cream", "b", "m", "d", "i"⟩]) ∧
    (([1, 2] : List Nat).Nodup →
      ((loadSelectedFromStorage (some [1, 2]) ([] : List Product)
          [⟨1, "Gel", "b", "c", "d", "i"⟩]).map Product.id).Nodup) :=
  C9_invariants _ _ 2 [1, 2] ⟨[⟨1, "Gel", "b", "c", "d", "i"⟩], none⟩
    (by decide) (by decide) (by decide)

/-- C8: in the generate handler every network call (search and chat) is
emitted between the disabling and the re-enabling of the generate button,
and in the follow-up handler the chat-proxy call (the network call the
disable/finally block wraps) is emitted between the disabling and the
re-enabling of the send button; on every success and failure path the
trace ends with the control enabled. -/
theorem C8_disable_guard (env env2 : ClientEnv) (st st2 : ClientState)
    (text : String) :
    netGuarded (generateClick env st).snd false = true ∧
    chatGuarded (followUpSubmit env2 st2 text).snd false = true := by
  constructor
  · obtain ⟨cfg, resp, co⟩ := env
    by_cases h : st.selectedProducts.length = 0
    · simp [generateClick, h, netGuarded]
    · cases cfg <;> cases co <;> cases resp <;>
        simp [generateClick, h, performWebSearch, netGuarded] <;>
        (try (split <;> simp [netGuarded]))
  · obtain ⟨cfg, resp, co⟩ := env2
    by_cases ht : strTrim text = ""
    · simp [followUpSubmit, ht, chatGuarded]
    · by_cases hg : st2.routineGenerated = false
      · simp [followUpSubmit, ht, hg, chatGuarded]
      · cases cfg <;> cases co <;> cases resp <;>
          simp [followUpSubmit, ht, hg, performWebSearch, chatGuarded] <;>
          (try (split <;> simp [chatGuarded]))

theorem followUp_conv (env2 : ClientEnv) (s : ClientState) (text : String)
    (hg : s.routineGenerated = true) (ht : strTrim text ≠ "") :
    (followUpSubmit env2 s text).fst.conversationMessages
      = s.conversationMessages ++ [⟨"user", strTrim text⟩]
        ++ (if (performWebSearch env2 (strTrim text ++ " L\x27Oréal")).fst.length > 0
            then [webSysMsg (performWebSearch env2 (strTrim text ++ " L\x27Oréal")).fst]
            else [])
        ++ (match env2.chatOutcome with
            | Except.ok r => [(⟨"assistant", r⟩ : ChatMsg)]
            | Except.error _ => ([] : List ChatMsg)) := by
  cases hco : env2.chatOutcome with
  | ok r =>
    simp only [followUpSubmit, hco, hg]
    rw [if_neg ht]
    simp only [Bool.true_eq_false, if_false, ite_false]
    split <;> simp [List.append_assoc]
  | error e =>
    simp only [followUpSubmit, hco, hg]
    rw [if_neg ht]
    simp only [Bool.true_eq_false, if_false, ite_false]
    split <;> simp [List.append_assoc]

/-- C4 counterexample: after a successful generate (no search proxy), a
follow-up against an environment whose search proxy returns one result
appends three transcript entries — user, system (web results), assistant —
so a follow-up exchange does not append only one user and one assistant
entry. -/
theorem C4_counterexample :
    ((followUpSubmit ⟨true, ProxyResp.jsonArr [⟨"t", "s", "u"⟩], Except.ok "answer"⟩
        (generateClick ⟨false, ProxyResp.jsonOther, Except.ok "routine"⟩
          ⟨[⟨1, "Gel", "b", "c", "d", "i"⟩], [], false⟩).fst
        "How to use it").fst.conversationMessages.map ChatMsg.role
      = ["system", "user", "assistant", "user", "system", "assistant"]) ∧
    ((followUpSubmit ⟨true, ProxyResp.jsonArr [⟨"t", "s", "u"⟩], Except.ok "answer"⟩
        (generateClick ⟨false, ProxyResp.jsonOther, Except.ok "routine"⟩
          ⟨[⟨1, "Gel", "b", "c", "d", "i"⟩], [], false⟩).fst
        "How to use it").fst.conversationMessages.length
      ≠ (generateClick ⟨false, ProxyResp.jsonOther, Except.ok "routine"⟩
          ⟨[⟨1, "Gel", "b", "c", "d", "i"⟩], [], false⟩).fst.conversationMessages.length
        + 2) := by
  refine ⟨rfl, by decide⟩

/-- C4 (amended): after a successful generate the Transcript's first
element is the fixed system instruction and its second is the user message
carrying the selected products as structured JSON text; a follow-up
appends exactly one user entry, then — only when the configured web search
returns results — exactly one system entry with the formatted results,
and, on success, exactly one assistant entry (none on failure). -/
theorem C4_transcript (env env2 : ClientEnv) (st : ClientState)
    (reply text : String)
    (hsel : st.selectedProducts ≠ [])
    (hok : env.chatOutcome = Except.ok reply) :
    ((generateClick env st).fst.conversationMessages.head? =
      some systemInstruction) ∧
    ((generateClick env st).fst.conversationMessages.get? 1 =
      some ⟨"user", genUserContent st.selectedProducts⟩) ∧
    ((generateClick env st).fst.routineGenerated = true) ∧
    (strTrim text ≠ "" →
      (followUpSubmit env2 (generateClick env st).fst text).fst.conversationMessages
        = (generateClick env st).fst.conversationMessages
          ++ [⟨"user", strTrim text⟩]
          ++ (if (performWebSearch env2 (strTrim text ++ " L\x27Oréal")).fst.length > 0
              then [webSysMsg (performWebSearch env2 (strTrim text ++ " L\x27Oréal")).fst]
              else [])
          ++ (match env2.chatOutcome with
              | Except.ok r => [(⟨"assistant", r⟩ : ChatMsg)]
              | Except.error _ => ([] : List ChatMsg))) := by
  have hlen : ¬(st.selectedProducts.length = 0) := by
    intro h0
    exact hsel (List.length_eq_zero.mp h0)
  have hgen : (generateClick env st).fst.routineGenerated = true := by
    simp only [generateClick, hok]
    rw [if_neg hlen]
  refine ⟨?_, ?_, hgen, ?_⟩
  · simp only [generateClick, hok]
    rw [if_neg hlen]
    split <;> simp
  · simp only [generateClick, hok]
    rw [if_neg hlen]
    split <;> simp
  · intro ht
    exact followUp_conv env2 _ text hgen ht

theorem C4_witness :
    ((generateClick ⟨false, ProxyResp.jsonOther, Except.ok "routine"⟩
        ⟨[⟨1, "Gel", "b", "c", "d", "i"⟩], [], false⟩).fst.conversationMessages.head? =
      some systemInstruction) ∧
    ((generateClick ⟨false, ProxyResp.jsonOther, Except.ok "routine"⟩
        ⟨[⟨1, "Gel", "b", "c", "d", "i"⟩], [], false⟩).fst.conversationMessages.get? 1 =
      some ⟨"user", genUserContent [⟨1, "Gel", "b", "c", "d", "i"⟩]⟩) ∧
    ((generateClick ⟨false, ProxyResp.jsonOther, Except.ok "routine"⟩
        ⟨[⟨1, "Gel", "b", "c", "d", "i"⟩], [], false⟩).fst.routineGenerated = true) ∧
    (strTrim "How to use it" ≠ "" →
      (followUpSubmit ⟨false, ProxyResp.jsonOther, Except.error "boom"⟩
          (generateClick ⟨false, ProxyResp.jsonOther, Except.ok "routine"⟩
            ⟨[⟨1, "Gel", "b", "c", "d", "i"⟩], [], false⟩).fst
          "How to use it").fst.conversationMessages
        = (generateClick ⟨false, ProxyResp.jsonOther, Except.ok "routine"⟩
            ⟨[⟨1, "Gel", "b", "c", "d", "i"⟩], [], false⟩).fst.conversationMessages
          ++ [⟨"user", strTrim "How to use it"⟩]
          ++ (if (performWebSearch ⟨false, ProxyResp.jsonOther, Except.error "boom"⟩
                  (strTrim "How to use it" ++ " L\x27Oréal")).fst.length > 0
              then [webSysMsg (performWebSearch
                  ⟨false, ProxyResp.jsonOther, Except.error "boom"⟩
                  (strTrim "How to use it" ++ " L\x27Oréal")).fst]
              else [])
          ++ (match (Except.error "boom" : Except String String) with
              | Except.ok r => [(⟨"assistant", r⟩ : ChatMsg)]
              | Except.error _ => ([] : List ChatMsg))) :=
  C4_transcript ⟨false, ProxyResp.jsonOther, Except.ok "routine"⟩
    ⟨false, ProxyResp.jsonOther, Except.error "boom"⟩
    ⟨[⟨1, "Gel", "b", "c", "d", "i"⟩], [], false⟩
    "routine" "How to use it" (by decide) rfl

theorem ne_empty_of_length_pos (s : String) (h : 0 < s.length) : s ≠ "" := by
  intro he
  rw [he] at h
  simp at h

theorem joinSep_length_ge (sep x : String) (xs : List String) :
    x.length ≤ (joinSep sep (x :: xs)).length := by
  cases xs with
  | nil => simp [joinSep]
  | cons y t =>
    simp only [joinSep, String.length_append]
    omega

theorem workerFormat_ne_empty (r : SearchResult) (t : List SearchResult) :
    workerFormat (r :: t) ≠ "" := by
  apply ne_empty_of_length_pos
  have hge := joinSep_length_ge "\n\n"
    (toString (0 + 1) ++ ". " ++ r.title ++ "\n" ++ r.snippet ++ "\n" ++ r.url)
    (workerResultLines (0 + 1) t)
  have hlen : 0 <
      (toString (0 + 1) ++ ". " ++ r.title ++ "\n" ++ r.snippet ++ "\n"
        ++ r.url).length := by
    have l2 : (". " : String).length = 2 := rfl
    simp only [String.length_append, l2]
    omega
  calc 0 < _ := hlen
    _ ≤ (workerFormat (r :: t)).length := hge

/-- C6 counterexample: a POST `/search` on the combined worker with a
nonempty query and no configured key returns status 500 (the missing-key
error thrown by `doOpenAISearch` reaches the top-level catch), not the 400
the claim states; no search-provider call is made. -/
theorem C6_counterexample :
    (combinedSearchBranch ⟨none, Except.ok [], Except.ok ""⟩ true "x").fst.status
      = 500 ∧
    (combinedSearchBranch ⟨none, Except.ok [], Except.ok ""⟩ true "x").fst.status
      ≠ 400 ∧
    (combinedSearchBranch ⟨none, Except.ok [], Except.ok ""⟩ true "x").snd = [] := by
  refine ⟨rfl, by decide, rfl⟩

/-- C6 (amended): a POST `/search` with a nonempty query and no configured
backend key yields a JSON error body and no network call to any search
provider on both workers; the minimal worker answers with status 400,
while the combined worker answers with status 500 because its missing-key
error is thrown and caught at top level. -/
theorem C6_no_key (env : WEnv) (menv : MEnv) (q : String)
    (hq : strTrim q ≠ "")
    (hkey : env.OPENAI_API_KEY = none)
    (hserp : menv.SERPAPI_KEY = none)
    (hgoog : menv.GOOGLE_API_KEY = none ∨ menv.GOOGLE_CX = none) :
    combinedSearchBranch env true q
      = (⟨500, RespBody.errB "Missing OPENAI_API_KEY in worker environment"⟩, []) ∧
    minimalSearch menv q
      = (⟨400, RespBody.errB
          "No search API key configured (SERPAPI_KEY or GOOGLE_API_KEY+GOOGLE_CX)."⟩,
         []) := by
  constructor
  · simp [combinedSearchBranch, doOpenAISearch, hkey, hq]
  · cases hA : menv.GOOGLE_API_KEY with
    | some a =>
      cases hX : menv.GOOGLE_CX with
      | some x =>
        exfalso
        rcases hgoog with h | h
        · rw [hA] at h
          exact Option.noConfusion h
        · rw [hX] at h
          exact Option.noConfusion h
      | none => simp [minimalSearch, hserp, hq, hA, hX]
    | none =>
      cases hX : menv.GOOGLE_CX <;> simp [minimalSearch, hserp, hq, hA, hX]

theorem C6_witness :
    combinedSearchBranch ⟨none, Except.ok [], Except.ok ""⟩ true "x"
      = (⟨500, RespBody.errB "Missing OPENAI_API_KEY in worker environment"⟩, []) ∧
    minimalSearch ⟨none, none, none, FetchRes.notOk, FetchRes.notOk⟩ "x"
      = (⟨400, RespBody.errB
          "No search API key configured (SERPAPI_KEY or GOOGLE_API_KEY+GOOGLE_CX)."⟩,
         []) :=
  C6_no_key _ _ "x" (by decide) rfl rfl (Or.inl rfl)

/-- C7: the combined worker's `/chat` branch derives the search query from
the trimmed explicit `message` field, falling back to the last user turn;
when the search step succeeds with nonempty results it prepends one system
message carrying at most six formatted results; and the language-model
fetch receives the resulting transcript flattened to `ROLE: content` parts
joined by blank lines, in transcript order (`flattenMessages`). -/
theorem C7_chat_pipeline (env : WEnv) (body : ChatBody) (k : String)
    (rs : List SearchResult) (t : String)
    (h1 : env.OPENAI_API_KEY = some k)
    (h2 : env.searchStep = Except.ok rs)
    (h3 : rs ≠ [])
    (h4 : deriveQuery body ≠ "")
    (h5 : env.lmStep = Except.ok t) :
    chatBranch env true body
      = (⟨200, RespBody.chatB t (rs.take 6)⟩,
         [WCall.searchFetch (deriveQuery body),
          WCall.lmFetch (flattenMessages
            (⟨"system", "Web search results (top):\n\n" ++ workerFormat (rs.take 6)⟩
              :: body.messages.getD []))]) ∧
    (rs.take 6).length ≤ 6 ∧
    (∀ s, body.message = some s → s ≠ "" → deriveQuery body = strTrim s) ∧
    (body.message = none → deriveQuery body = lastUserContent body) := by
  obtain ⟨r, rs', hrs⟩ := List.exists_cons_of_ne_nil h3
  subst hrs
  have hfmt : workerFormat (r :: rs'.take 5) ≠ "" := workerFormat_ne_empty _ _
  refine ⟨?_, ?_, ?_, ?_⟩
  · simp [chatBranch, doOpenAISearch, callOpenAIResponsesM, h1, h2, h5, h4, hfmt]
  · exact List.length_take_le 6 _
  · intro s hm hs
    simp [deriveQuery, hm, hs]
  · intro hm
    simp [deriveQuery, hm]

theorem C7_witness :
    chatBranch ⟨some "k", Except.ok [⟨"T", "S", "U"⟩], Except.ok "reply"⟩ true
        ⟨some "hello", none⟩
      = (⟨200, RespBody.chatB "reply" ([(⟨"T", "S", "U"⟩ : SearchResult)].take 6)⟩,
         [WCall.searchFetch (deriveQuery ⟨some "hello", none⟩),
          WCall.lmFetch (flattenMessages
            (⟨"system", "Web search results (top):\n\n"
                ++ workerFormat ([(⟨"T", "S", "U"⟩ : SearchResult)].take 6)⟩
              :: (none : Option (List ChatMsg)).getD []))]) ∧
    ([(⟨"T", "S", "U"⟩ : SearchResult)].take 6).length ≤ 6 ∧
    (∀ s, (some "hello" : Option String) = some s → s ≠ "" →
      deriveQuery ⟨some "hello", none⟩ = strTrim s) ∧
    ((some "hello" : Option String) = none →
      deriveQuery ⟨some "hello", none⟩ = lastUserContent ⟨some "hello", none⟩) :=
  C7_chat_pipeline ⟨some "k", Except.ok [⟨"T", "S", "U"⟩], Except.ok "reply"⟩
    ⟨some "hello", none⟩ "k" [⟨"T", "S", "U"⟩] "reply"
    rfl rfl (by decide) (by decide) rfl
